import Mathlib

/-!
Shallow embedding of the record-matching and field-population engine of
`src/app.py` (a Streamlit meter-reading populator).

Modelling conventions:
* A spreadsheet cell is `Option String`: `none` models a missing value
  (`pd.isna`), `some s` a present value identified with its textual
  representation (Python `str(val)`).  The engine never does arithmetic on
  cell values — it only tests presence, copies them verbatim, and writes the
  literal `0` (modelled as `some "0"`).
* A dataframe row is a total map from column name to cell; a column absent
  from the row yields `none`, matching pandas `Series.get`.
* Python string primitives (`str.strip`, `str.endswith`, slicing, `len`,
  `s[-1]`) are modelled structurally on the code-point list `String.data`,
  so that all definitions evaluate inside the kernel.
* `process_dataframes` mutates its target dataframe in place in Python; here
  it is written in state-passing style: the first component of the result is
  the state of the target table after the call (unchanged on the error
  paths, which in Python return before any mutation).  Python's `KeyError`
  on `BILLING_CONFIG[billing_type]` for an unregistered name is modelled as
  the `unknownFormat` error of the spec's taxonomy.
-/

/-- Python `str.strip()` on the code-point list: drop whitespace from both
ends. -/
def pyStrip (s : String) : String :=
  ⟨((s.data.dropWhile Char.isWhitespace).reverse.dropWhile Char.isWhitespace).reverse⟩

/-- Python `s.endswith(suff)` on code-point lists. -/
def pyEndsWith (s suff : String) : Bool :=
  (s.data.reverse.take suff.data.length) == suff.data.reverse

/-- Python `s[:-n]` (for `n ≤ len(s)`): drop the last `n` code points. -/
def pyDropRight (s : String) (n : Nat) : String :=
  ⟨s.data.take (s.data.length - n)⟩

/-- Python `len(s)`: number of code points. -/
def pyLen (s : String) : Nat :=
  s.data.length

/-- Python `s[-1]` (only used when `len(s) ≥ 2`): the last code point. -/
def pyLast (s : String) : Char :=
  s.data.getLastD ' '

/-- A spreadsheet cell: `none` is a missing value (`pd.isna`), `some s` a
present value identified with its textual representation. -/
abbrev Cell := Option String

/-- A dataframe row: total map from column name to cell, `none` on columns
the row does not carry (pandas `row.get`). -/
abbrev Row := String → Cell

/-- A dataframe: ordered column names plus ordered rows. -/
structure DataFrame where
  cols : List String
  rows : List Row

/-- Function `clean_nmi` from `src/app.py` lines 38-45: `""` on missing input,
otherwise `str(val).strip()`, then drop a trailing `".0"` if present. -/
def clean_nmi (val : Cell) : String :=
  match val with
  | none => ""
  | some v =>
    let s := pyStrip v
    if pyEndsWith s ".0" then pyDropRight s 2 else s

/-- One suffix rule of a billing format: either a reading-range column pair
(`{"start": …, "end": …}`) or a single quantity column (`{"qty": …}`). -/
inductive SuffixRule where
  | range (startCol endCol : String)
  | qty (col : String)
deriving DecidableEq

/-- One entry of `BILLING_CONFIG`: header row offset, identifier column and
the per-suffix column rules. -/
structure BillingFormat where
  header_row : Nat
  col_nmi : String
  suffixes : List (Char × SuffixRule)
deriving DecidableEq

/-- The registry `BILLING_CONFIG` from `src/app.py` lines 6-36. -/
def BILLING_CONFIG : List (String × BillingFormat) :=
  [("Quarterly Billing",
    ⟨1, "NMI",
     [('P', .range "PEAK_KWH" "PEAK_KWH.1"),
      ('A', .qty "Availability charge Quantity")]⟩),
   ("Power Smart Billing",
    ⟨1, "NMI",
     [('P', .range "Peak kWh reading" "Peak kWh reading.1"),
      ('S', .range "Shoulder kWh reading" "Shoulder kWh reading.1"),
      ('O', .range "Off peak kWh reading" "Off peak kWh reading.1"),
      ('A', .qty "Availability")]⟩),
   ("Load Smart Billing",
    ⟨1, "NMI",
     [('P', .range "Peak kWh reading" "Peak kWh reading.1"),
      ('S', .range "Shoulder kWh reading" "Shoulder kWh reading.1"),
      ('O', .range "Off peak kWh reading" "Off peak kWh reading.1"),
      ('D', .qty "DEMAND"),
      ('A', .qty "Availability")]⟩)]

/-- The per-suffix data stored for one indexed billing row: the dict
`{"start": row.get(...), "end": row.get(...)}` or `{"qty": row.get(...)}`
of `src/app.py` lines 73-81. -/
inductive SuffixData where
  | range (startVal endVal : Cell)
  | qty (val : Cell)
deriving DecidableEq

/-- The dict `nmi_data` built for one billing row (`src/app.py` lines 71-81): one
entry per configured suffix rule, reading the configured columns from the
row (absent column gives an absent value). -/
def buildNmiData (suffixes : List (Char × SuffixRule)) (row : Row) :
    List (Char × SuffixData) :=
  suffixes.map (fun p =>
    match p.2 with
    | .range s e => (p.1, .range (row s) (row e))
    | .qty q => (p.1, .qty (row q)))

/-- The billing lookup dict, as a map from normalized identifier to
per-suffix data. -/
abbrev Lookup := String → Option (List (Char × SuffixData))

/-- Dict insertion with overwrite: `billing_lookup[k] = v`. -/
def insertLookup (acc : Lookup) (k : String) (v : List (Char × SuffixData)) :
    Lookup :=
  fun k2 => if k2 = k then some v else acc k2

/-- One iteration of the lookup-building loop of `src/app.py` lines 66-82:
skip the row if its cleaned identifier is empty, otherwise insert (or
overwrite) its per-suffix data under the cleaned identifier. -/
def lookupStep (config : BillingFormat) (acc : Lookup) (row : Row) : Lookup :=
  let nmi_clean := clean_nmi (row config.col_nmi)
  if nmi_clean = "" then acc
  else insertLookup acc nmi_clean (buildNmiData config.suffixes row)

/-- The lookup-building loop of `src/app.py` lines 63-82: scan the billing
rows in order, last write wins on duplicate identifiers. -/
def buildLookup (config : BillingFormat) (rows : List Row) : Lookup :=
  rows.foldl (lookupStep config) (fun _ => none)

/-- Write one cell of a row: `df.at[index, c] = v`. -/
def setCell (row : Row) (c : String) (v : Cell) : Row :=
  fun c2 => if c2 = c then v else row c2

/-- The body of the target-update loop of `src/app.py` lines 90-124 for one
target row: returns the updated row and whether `matches_found` was
incremented for it. -/
def processTargetRow (lookup : Lookup) (row : Row) : Row × Bool :=
  let meter_clean := clean_nmi (row "Meter No.")
  if pyLen meter_clean < 2 then (row, false) else
  match lookup (pyDropRight meter_clean 1) with
  | none => (row, false)
  | some nmi_data =>
    match nmi_data.lookup (pyLast meter_clean) with
    | none => (row, false)
    | some (.qty val) =>
      if val.isSome then
        (setCell (setCell row "Reading From" (some "0")) "Reading To" val, true)
      else (row, false)
    | some (.range s_val e_val) =>
      let step1 := if s_val.isSome then (setCell row "Reading From" s_val, true)
                   else (row, false)
      let step2 := if e_val.isSome then (setCell step1.1 "Reading To" e_val, true)
                   else (step1.1, false)
      (step2.1, step1.2 || step2.2)

/-- The list of `(column, value)` cell writes the loop body performs on one
target row, in execution order (instrumentation of `processTargetRow` used
to state the match-count property). -/
def rowWrites (lookup : Lookup) (row : Row) : List (String × Cell) :=
  let meter_clean := clean_nmi (row "Meter No.")
  if pyLen meter_clean < 2 then [] else
  match lookup (pyDropRight meter_clean 1) with
  | none => []
  | some nmi_data =>
    match nmi_data.lookup (pyLast meter_clean) with
    | none => []
    | some (.qty val) =>
      if val.isSome then [("Reading From", some "0"), ("Reading To", val)]
      else []
    | some (.range s_val e_val) =>
      (if s_val.isSome then [("Reading From", s_val)] else []) ++
      (if e_val.isSome then [("Reading To", e_val)] else [])

/-- Apply a list of cell writes to a row, in order. -/
def applyWrites (row : Row) (ws : List (String × Cell)) : Row :=
  ws.foldl (fun r w => setCell r w.1 w.2) row

/-- Column creation `if c not in df.columns: df[c] = None` of `src/app.py` lines 87-88:
append the column, initialized to absent, unless already present. -/
def ensureCol (df : DataFrame) (c : String) : DataFrame :=
  if c ∈ df.cols then df
  else ⟨df.cols ++ [c], df.rows.map (fun r => setCell r c none)⟩

/-- The error taxonomy of the pass: unregistered billing format
(Python `KeyError` on the config dict) or a missing required column
(the two early `return None, 0, msg` paths). -/
inductive PError where
  | unknownFormat (name : String)
  | missingColumn (table col : String)
deriving DecidableEq

/-- Function `process_dataframes` from `src/app.py` lines 47-126, in state-passing
style: the first component is the state of the (in Python, in-place
mutated) target table after the call — unchanged on the error paths, which
return before any mutation. -/
def process_dataframes (df_billing df_target : DataFrame)
    (billing_type : String) : DataFrame × Nat × Option PError :=
  match BILLING_CONFIG.lookup billing_type with
  | none => (df_target, 0, some (.unknownFormat billing_type))
  | some config =>
    if config.col_nmi ∈ df_billing.cols then
      if "Meter No." ∈ df_target.cols then
        let billing_lookup := buildLookup config df_billing.rows
        let df1 := ensureCol (ensureCol df_target "Reading From") "Reading To"
        let processed := df1.rows.map (processTargetRow billing_lookup)
        (⟨df1.cols, processed.map Prod.fst⟩, processed.countP Prod.snd, none)
      else (df_target, 0, some (.missingColumn "target" "Meter No."))
    else (df_target, 0, some (.missingColumn "billing" config.col_nmi))

/-- The normalizer exactly as the spec sentence for C4 words it: take the
textual representation, strip a trailing ".0" from that representation if
present, and only then trim surrounding whitespace. -/
def clean_nmi_claimed (val : Cell) : String :=
  match val with
  | none => ""
  | some v =>
    pyStrip (if pyEndsWith v ".0" then pyDropRight v 2 else v)

/-- C4 counterexample: on the value whose textual representation is
"5.0 " (trailing space), the claimed order (strip ".0" from the raw
representation, then trim) yields "5.0", but `clean_nmi` trims first and
then strips ".0", yielding "5". -/
theorem c4_normalizer_order_counterexample :
    clean_nmi_claimed (some "5.0 ") = "5.0" ∧
    clean_nmi (some "5.0 ") = "5" ∧
    clean_nmi (some "5.0 ") ≠ clean_nmi_claimed (some "5.0 ") := by
  decide

/-- C4 (amended): `clean_nmi` returns "" on absent input; otherwise it
first trims surrounding whitespace from the textual representation and
then strips a trailing ".0" from the trimmed text (the result is not
re-trimmed). -/
theorem c4_normalizer_amended (val : Cell) :
    (val = none → clean_nmi val = "") ∧
    (∀ s, val = some s → pyEndsWith (pyStrip s) ".0" = false →
      clean_nmi val = pyStrip s) ∧
    (∀ s, val = some s → pyEndsWith (pyStrip s) ".0" = true →
      clean_nmi val = pyDropRight (pyStrip s) 2) := by
  refine ⟨fun h => by rw [h]; rfl, fun s hs h => ?_, fun s hs h => ?_⟩
  · rw [hs]; simp [clean_nmi, h]
  · rw [hs]; simp [clean_nmi, h]

/-- Witness for the amended C4 at concrete inputs. -/
theorem c4_normalizer_amended_witness :
    clean_nmi (some " 7.0 ") = pyDropRight (pyStrip " 7.0 ") 2 ∧
    clean_nmi (some " 7 ") = pyStrip " 7 " :=
  ⟨(c4_normalizer_amended (some " 7.0 ")).2.2 " 7.0 " rfl (by decide),
   (c4_normalizer_amended (some " 7 ")).2.1 " 7 " rfl (by decide)⟩

/-- C5 counterexample: the normalizer is not idempotent on all strings —
on "5.0.0" one application yields "5.0", which a second application
further strips to "5". -/
theorem c5_idempotence_counterexample :
    clean_nmi (some "5.0.0") = "5.0" ∧
    clean_nmi (some (clean_nmi (some "5.0.0"))) = "5" ∧
    clean_nmi (some (clean_nmi (some "5.0.0"))) ≠ clean_nmi (some "5.0.0") := by
  decide

/-- C5 (amended): the normalizer is idempotent on every string whose
normalization does not itself end in ".0" and carries no surrounding
whitespace (both conditions are necessary: "5.0.0" violates the first,
"5 .0" — normalizing to "5 " — the second). -/
theorem c5_idempotence_amended (x : String)
    (h1 : pyEndsWith (clean_nmi (some x)) ".0" = false)
    (h2 : pyStrip (clean_nmi (some x)) = clean_nmi (some x)) :
    clean_nmi (some (clean_nmi (some x))) = clean_nmi (some x) := by
  conv_lhs => rw [clean_nmi]
  rw [h2, h1]
  simp

/-- Witness for the amended C5 at a concrete input. -/
theorem c5_idempotence_amended_witness :
    pyEndsWith (clean_nmi (some "123")) ".0" = false ∧
    pyStrip (clean_nmi (some "123")) = clean_nmi (some "123") ∧
    clean_nmi (some (clean_nmi (some "123"))) = clean_nmi (some "123") :=
  ⟨by decide, by decide, c5_idempotence_amended "123" (by decide) (by decide)⟩

/-- C8: an unregistered billing format name makes the pass abort with the
`unknownFormat` error, before any mutation (the target table comes back
unchanged and the count is zero). -/
theorem c8_unknown_format (df_billing df_target : DataFrame)
    (billing_type : String)
    (h : BILLING_CONFIG.lookup billing_type = none) :
    process_dataframes df_billing df_target billing_type =
      (df_target, 0, some (.unknownFormat billing_type)) := by
  unfold process_dataframes
  rw [h]

/-- Witness for C8: "Hourly Billing" is not a registered format. -/
theorem c8_unknown_format_witness :
    BILLING_CONFIG.lookup "Hourly Billing" = none ∧
    process_dataframes ⟨[], []⟩ ⟨[], []⟩ "Hourly Billing" =
      (⟨[], []⟩, 0, some (.unknownFormat "Hourly Billing")) :=
  ⟨by decide, c8_unknown_format ⟨[], []⟩ ⟨[], []⟩ "Hourly Billing" (by decide)⟩

/-- C1: on a target row whose cleaned composite identifier is long enough,
whose base resolves in the lookup, and whose suffix carries reading-range
data: each of the two output fields is written exactly when its source
bound is present (an absent bound leaves the field's prior value), and the
row is counted iff at least one bound is present. -/
theorem c1_reading_range_population (lookup : Lookup) (row : Row)
    (nmi_data : List (Char × SuffixData)) (s_val e_val : Cell)
    (hlen : 2 ≤ pyLen (clean_nmi (row "Meter No.")))
    (hbase : lookup (pyDropRight (clean_nmi (row "Meter No.")) 1) =
      some nmi_data)
    (hsuf : nmi_data.lookup (pyLast (clean_nmi (row "Meter No."))) =
      some (.range s_val e_val)) :
    ((processTargetRow lookup row).2 = (s_val.isSome || e_val.isSome)) ∧
    (∀ v, s_val = some v →
      (processTargetRow lookup row).1 "Reading From" = some v) ∧
    (s_val = none →
      (processTargetRow lookup row).1 "Reading From" = row "Reading From") ∧
    (∀ v, e_val = some v →
      (processTargetRow lookup row).1 "Reading To" = some v) ∧
    (e_val = none →
      (processTargetRow lookup row).1 "Reading To" = row "Reading To") ∧
    (s_val = none → e_val = none → processTargetRow lookup row = (row, false)) := by
  have hne : ("Reading From" : String) ≠ "Reading To" := by decide
  simp only [processTargetRow, Nat.not_lt.mpr hlen, if_false, hbase, hsuf]
  cases s_val <;> cases e_val <;>
    simp [setCell, hne, Ne.symm hne]

/-- C2: on a target row whose cleaned composite identifier is long enough,
whose base resolves in the lookup, and whose suffix carries quantity data:
a present quantity writes `Reading From = 0` and `Reading To = value` and
counts the row; an absent quantity writes nothing and does not count. -/
theorem c2_quantity_population (lookup : Lookup) (row : Row)
    (nmi_data : List (Char × SuffixData)) (q_val : Cell)
    (hlen : 2 ≤ pyLen (clean_nmi (row "Meter No.")))
    (hbase : lookup (pyDropRight (clean_nmi (row "Meter No.")) 1) =
      some nmi_data)
    (hsuf : nmi_data.lookup (pyLast (clean_nmi (row "Meter No."))) =
      some (.qty q_val)) :
    (∀ v, q_val = some v →
      (processTargetRow lookup row).1 "Reading From" = some "0" ∧
      (processTargetRow lookup row).1 "Reading To" = some v ∧
      (processTargetRow lookup row).2 = true) ∧
    (q_val = none → processTargetRow lookup row = (row, false)) := by
  have hne : ("Reading From" : String) ≠ "Reading To" := by decide
  simp only [processTargetRow, Nat.not_lt.mpr hlen, if_false, hbase, hsuf]
  cases q_val <;>
    simp [setCell, hne, Ne.symm hne]

/-- The "Quarterly Billing" format entry, used by concrete witnesses. -/
def fmtQuarterly : BillingFormat :=
  (BILLING_CONFIG.lookup "Quarterly Billing").getD ⟨0, "", []⟩

/-- A concrete billing row of scenario 1 of the spec (NMI stored as a
floating value, a peak reading pair, an availability quantity). -/
def billingRowQ : Row := fun c =>
  if c = "NMI" then some "1234567890.0"
  else if c = "PEAK_KWH" then some "100"
  else if c = "PEAK_KWH.1" then some "500"
  else if c = "Availability charge Quantity" then some "42"
  else none

/-- A concrete target row with a P-suffixed composite identifier. -/
def targetRowP : Row := fun c =>
  if c = "Meter No." then some "1234567890P" else none

/-- A concrete target row with an A-suffixed composite identifier. -/
def targetRowA : Row := fun c =>
  if c = "Meter No." then some "1234567890A" else none

/-- Witness for C1: scenario 1 of the spec — the P-suffixed target row
receives `Reading From = 100`, `Reading To = 500` and is counted. -/
theorem c1_reading_range_population_witness :
    (processTargetRow (buildLookup fmtQuarterly [billingRowQ]) targetRowP).1
        "Reading From" = some "100" ∧
    (processTargetRow (buildLookup fmtQuarterly [billingRowQ]) targetRowP).1
        "Reading To" = some "500" ∧
    (processTargetRow (buildLookup fmtQuarterly [billingRowQ]) targetRowP).2 =
      true := by
  have h := c1_reading_range_population
    (buildLookup fmtQuarterly [billingRowQ]) targetRowP
    [('P', .range (some "100") (some "500")), ('A', .qty (some "42"))]
    (some "100") (some "500") (by decide) (by decide) (by decide)
  exact ⟨h.2.1 "100" rfl, h.2.2.2.1 "500" rfl, by rw [h.1]; rfl⟩

/-- Witness for C2: scenario 2-style — the A-suffixed target row receives
`Reading From = 0`, `Reading To = 42` and is counted. -/
theorem c2_quantity_population_witness :
    (processTargetRow (buildLookup fmtQuarterly [billingRowQ]) targetRowA).1
        "Reading From" = some "0" ∧
    (processTargetRow (buildLookup fmtQuarterly [billingRowQ]) targetRowA).1
        "Reading To" = some "42" ∧
    (processTargetRow (buildLookup fmtQuarterly [billingRowQ]) targetRowA).2 =
      true := by
  have h := c2_quantity_population
    (buildLookup fmtQuarterly [billingRowQ]) targetRowA
    [('P', .range (some "100") (some "500")), ('A', .qty (some "42"))]
    (some "42") (by decide) (by decide) (by decide)
  exact h.1 "42" rfl

/-- A loop iteration leaves the lookup unchanged at every key other than
the row's cleaned identifier. -/
lemma lookupStep_preserve (config : BillingFormat) (acc : Lookup) (r2 : Row)
    (k : String) (h : clean_nmi (r2 config.col_nmi) ≠ k) :
    lookupStep config acc r2 k = acc k := by
  simp only [lookupStep]
  by_cases h2 : clean_nmi (r2 config.col_nmi) = ""
  · simp [h2]
  · simp [h2, insertLookup, Ne.symm h]

/-- Folding the loop over rows none of which cleans to `k` leaves the
lookup unchanged at `k`. -/
lemma foldl_lookupStep_preserve (config : BillingFormat) (k : String)
    (post : List Row) (acc : Lookup)
    (hpost : ∀ r2 ∈ post, clean_nmi (r2 config.col_nmi) ≠ k) :
    (post.foldl (lookupStep config) acc) k = acc k := by
  induction post generalizing acc with
  | nil => rfl
  | cons r2 rest ih =>
    rw [List.foldl_cons, ih _ (fun x hx => hpost x (List.mem_cons_of_mem _ hx)),
      lookupStep_preserve config acc r2 k (hpost r2 (List.mem_cons_self _ _))]

/-- C6: when several billing rows clean to the same non-empty identifier,
the built lookup maps that identifier to the per-suffix data of the last
such row in table order; building never fails, duplicates included. -/
theorem c6_last_write_wins (config : BillingFormat) (pre post : List Row)
    (r : Row) (k : String)
    (hk : clean_nmi (r config.col_nmi) = k) (hne : k ≠ "")
    (hpost : ∀ r2 ∈ post, clean_nmi (r2 config.col_nmi) ≠ k) :
    buildLookup config (pre ++ r :: post) k =
      some (buildNmiData config.suffixes r) := by
  unfold buildLookup
  rw [List.foldl_append, List.foldl_cons,
    foldl_lookupStep_preserve config k post _ hpost]
  simp only [lookupStep, hk]
  simp [hne, insertLookup]

/-- A billing row that cleans to "123", with a peak start reading only. -/
def billingRowOld : Row := fun c =>
  if c = "NMI" then some "123"
  else if c = "PEAK_KWH" then some "1" else none

/-- A later billing row with the same identifier "123". -/
def billingRowNew : Row := fun c =>
  if c = "NMI" then some "123"
  else if c = "PEAK_KWH" then some "7" else none

/-- Witness for C6: with two billing rows both cleaning to "123", the
lookup holds the data of the second one. -/
theorem c6_last_write_wins_witness :
    buildLookup fmtQuarterly ([billingRowOld] ++ billingRowNew :: []) "123" =
      some (buildNmiData fmtQuarterly.suffixes billingRowNew) ∧
    buildNmiData fmtQuarterly.suffixes billingRowNew =
      [('P', .range (some "7") none), ('A', .qty none)] :=
  ⟨c6_last_write_wins fmtQuarterly [billingRowOld] [] billingRowNew "123"
      (by decide) (by decide) (by simp),
   by decide⟩

/-- Any value stored in the built lookup is the per-suffix data derived
from one of the scanned billing rows. -/
lemma foldl_lookupStep_mem (config : BillingFormat) (rows : List Row) :
    ∀ (acc : Lookup) (k : String) (nd : List (Char × SuffixData)),
    (rows.foldl (lookupStep config) acc) k = some nd →
    acc k = some nd ∨ ∃ r ∈ rows, nd = buildNmiData config.suffixes r := by
  induction rows with
  | nil => exact fun acc k nd h => Or.inl h
  | cons r rest ih =>
    intro acc k nd h
    rw [List.foldl_cons] at h
    rcases ih _ k nd h with h2 | ⟨r2, hr2, hnd⟩
    · by_cases hc : clean_nmi (r config.col_nmi) = ""
      · left
        simpa [lookupStep, hc] using h2
      · simp only [lookupStep, insertLookup, hc, if_false] at h2
        by_cases hk : k = clean_nmi (r config.col_nmi)
        · right
          refine ⟨r, List.mem_cons_self _ _, ?_⟩
          rw [if_pos hk] at h2
          exact (Option.some.inj h2).symm
        · left
          rwa [if_neg hk] at h2
    · exact Or.inr ⟨r2, List.mem_cons_of_mem _ hr2, hnd⟩

/-- The suffix keys of the per-suffix data of any row are exactly the
suffix keys of the format, independently of the row. -/
lemma buildNmiData_keys (suffixes : List (Char × SuffixRule)) (row : Row) :
    (buildNmiData suffixes row).map Prod.fst = suffixes.map Prod.fst := by
  induction suffixes with
  | nil => rfl
  | cons p rest ih =>
    cases p with
    | mk c rule =>
      cases rule <;> simpa [buildNmiData] using ih

/-- In an association list, lookup succeeds exactly on the stored keys. -/
lemma assoc_lookup_isSome {β : Type} (l : List (Char × β)) (c : Char) :
    (l.lookup c).isSome = true ↔ c ∈ l.map Prod.fst := by
  induction l with
  | nil => simp [List.lookup]
  | cons p rest ih =>
    obtain ⟨k, v⟩ := p
    by_cases hc : c = k
    · subst hc
      simp [List.lookup]
    · have hbeq : (c == k) = false := beq_eq_false_iff_ne.mpr hc
      simp only [List.lookup, hbeq, List.map_cons, List.mem_cons]
      rw [ih]
      simp [hc]

/-- C10: every indexed billing row stores per-suffix entries for exactly
the suffix codes of the active format (entries exist even when all
referenced columns are absent), so suffix recognition depends only on the
format, never on which columns the billing row carried. -/
theorem c10_suffix_entries_format_determined (config : BillingFormat)
    (rows : List Row) (k : String) (nmi_data : List (Char × SuffixData))
    (h : buildLookup config rows k = some nmi_data) :
    nmi_data.map Prod.fst = config.suffixes.map Prod.fst ∧
    (∀ c : Char,
      (nmi_data.lookup c).isSome = true ↔ c ∈ config.suffixes.map Prod.fst) := by
  rcases foldl_lookupStep_mem config rows (fun _ => none) k nmi_data h with
    h2 | ⟨r, _, hnd⟩
  · exact absurd h2 (by simp)
  · subst hnd
    refine ⟨buildNmiData_keys _ _, fun c => ?_⟩
    rw [assoc_lookup_isSome, buildNmiData_keys]

/-- A billing row with identifier "999" and no data columns at all. -/
def billingRowBare : Row := fun c =>
  if c = "NMI" then some "999" else none

/-- Witness for C10: a billing row with every data column absent still gets
one entry per configured suffix, and exactly the format's codes are
recognized. -/
theorem c10_suffix_entries_format_determined_witness :
    buildLookup fmtQuarterly [billingRowBare] "999" =
      some [('P', .range none none), ('A', .qty none)] ∧
    [('P', SuffixData.range none none), ('A', SuffixData.qty none)].map
        Prod.fst = fmtQuarterly.suffixes.map Prod.fst ∧
    (([('P', SuffixData.range none none),
       ('A', SuffixData.qty none)].lookup 'P').isSome = true ↔
      'P' ∈ fmtQuarterly.suffixes.map Prod.fst) :=
  have h := c10_suffix_entries_format_determined fmtQuarterly [billingRowBare]
    "999" [('P', .range none none), ('A', .qty none)] (by decide)
  ⟨by decide, h.1, h.2 'P'⟩

/-- Reduction of the pass on the success path: format registered, both
required columns present. -/
lemma process_dataframes_success_eq (df_billing df_target : DataFrame)
    (billing_type : String) (config : BillingFormat)
    (hc : BILLING_CONFIG.lookup billing_type = some config)
    (hb : config.col_nmi ∈ df_billing.cols)
    (ht : "Meter No." ∈ df_target.cols) :
    process_dataframes df_billing df_target billing_type =
      (⟨(ensureCol (ensureCol df_target "Reading From") "Reading To").cols,
        ((ensureCol (ensureCol df_target "Reading From") "Reading To").rows.map
          (processTargetRow (buildLookup config df_billing.rows))).map
            Prod.fst⟩,
       ((ensureCol (ensureCol df_target "Reading From") "Reading To").rows.map
          (processTargetRow (buildLookup config df_billing.rows))).countP
            Prod.snd,
       none) := by
  unfold process_dataframes
  simp only [hc, if_pos hb, if_pos ht]

/-- Reduction of the pass when the format name is not registered. -/
lemma process_dataframes_none_eq (df_billing df_target : DataFrame)
    (billing_type : String)
    (h : BILLING_CONFIG.lookup billing_type = none) :
    process_dataframes df_billing df_target billing_type =
      (df_target, 0, some (.unknownFormat billing_type)) := by
  unfold process_dataframes
  rw [h]

/-- Reduction of the pass when the billing identifier column is absent. -/
lemma process_dataframes_err_billing_eq (df_billing df_target : DataFrame)
    (billing_type : String) (config : BillingFormat)
    (hc : BILLING_CONFIG.lookup billing_type = some config)
    (hb : config.col_nmi ∉ df_billing.cols) :
    process_dataframes df_billing df_target billing_type =
      (df_target, 0, some (.missingColumn "billing" config.col_nmi)) := by
  unfold process_dataframes
  simp only [hc, if_neg hb]

/-- Reduction of the pass when the target composite-identifier column is
absent. -/
lemma process_dataframes_err_target_eq (df_billing df_target : DataFrame)
    (billing_type : String) (config : BillingFormat)
    (hc : BILLING_CONFIG.lookup billing_type = some config)
    (hb : config.col_nmi ∈ df_billing.cols)
    (ht : "Meter No." ∉ df_target.cols) :
    process_dataframes df_billing df_target billing_type =
      (df_target, 0, some (.missingColumn "target" "Meter No.")) := by
  unfold process_dataframes
  simp only [hc, if_pos hb, if_neg ht]

/-- C7: whenever the pass fails (unknown format or missing required
column), the error was detected before any mutation: the target table
comes back exactly as it went in — same columns, same rows, no cell
written — and the count is zero. -/
theorem c7_no_partial_writes_on_error (df_billing df_target : DataFrame)
    (billing_type : String) (out : DataFrame) (cnt : Nat) (e : PError)
    (h : process_dataframes df_billing df_target billing_type =
      (out, cnt, some e)) :
    out = df_target ∧ cnt = 0 ∧
    out.cols = df_target.cols ∧ out.rows = df_target.rows := by
  rcases hlk : BILLING_CONFIG.lookup billing_type with _ | config
  · rw [process_dataframes_none_eq _ _ _ hlk] at h
    simp only [Prod.mk.injEq] at h
    exact ⟨h.1.symm, h.2.1.symm, by rw [← h.1], by rw [← h.1]⟩
  · by_cases hb : config.col_nmi ∈ df_billing.cols
    · by_cases ht : "Meter No." ∈ df_target.cols
      · rw [process_dataframes_success_eq _ _ _ config hlk hb ht] at h
        simp only [Prod.mk.injEq] at h
        exact absurd h.2.2 (by simp)
      · rw [process_dataframes_err_target_eq _ _ _ config hlk hb ht] at h
        simp only [Prod.mk.injEq] at h
        exact ⟨h.1.symm, h.2.1.symm, by rw [← h.1], by rw [← h.1]⟩
    · rw [process_dataframes_err_billing_eq _ _ _ config hlk hb] at h
      simp only [Prod.mk.injEq] at h
      exact ⟨h.1.symm, h.2.1.symm, by rw [← h.1], by rw [← h.1]⟩

/-- Witness for C7: the quarterly format against a billing table without
an "NMI" column fails, and the target table is returned untouched. -/
theorem c7_no_partial_writes_on_error_witness :
    process_dataframes ⟨["X"], []⟩ ⟨["Meter No."], []⟩ "Quarterly Billing" =
      (⟨["Meter No."], []⟩, 0, some (.missingColumn "billing" "NMI")) ∧
    (process_dataframes ⟨["X"], []⟩ ⟨["Meter No."], []⟩
        "Quarterly Billing").1 = ⟨["Meter No."], []⟩ := by
  have h := c7_no_partial_writes_on_error ⟨["X"], []⟩ ⟨["Meter No."], []⟩
    "Quarterly Billing" ⟨["Meter No."], []⟩ 0
    (.missingColumn "billing" "NMI") rfl
  exact ⟨rfl, h.1⟩

/-- The loop body's increment flag is set exactly when it performed at
least one cell write. -/
lemma processTargetRow_snd_eq (lookup : Lookup) (row : Row) :
    (processTargetRow lookup row).2 = !(rowWrites lookup row).isEmpty := by
  simp only [processTargetRow, rowWrites]
  by_cases hl : pyLen (clean_nmi (row "Meter No.")) < 2
  · simp [hl]
  · simp only [if_neg hl]
    cases hv : lookup (pyDropRight (clean_nmi (row "Meter No.")) 1) with
    | none => simp
    | some nmi_data =>
      dsimp only
      cases hs : nmi_data.lookup (pyLast (clean_nmi (row "Meter No."))) with
      | none => simp
      | some sd =>
        cases sd with
        | qty v => cases v <;> simp
        | range s e => cases s <;> cases e <;> simp

/-- Every cell write of the loop body targets one of the two output
columns. -/
lemma rowWrites_keys (lookup : Lookup) (row : Row) :
    ∀ w ∈ rowWrites lookup row,
      w.1 = "Reading From" ∨ w.1 = "Reading To" := by
  have hall : (rowWrites lookup row).all
      (fun w => w.1 == "Reading From" || w.1 == "Reading To") = true := by
    simp only [rowWrites]
    by_cases hl : pyLen (clean_nmi (row "Meter No.")) < 2
    · simp [hl]
    · simp only [if_neg hl]
      cases hv : lookup (pyDropRight (clean_nmi (row "Meter No.")) 1) with
      | none => simp
      | some nmi_data =>
        dsimp only
        cases hs : nmi_data.lookup (pyLast (clean_nmi (row "Meter No."))) with
        | none => simp
        | some sd =>
          cases sd with
          | qty v => cases v <;> simp
          | range s e => cases s <;> cases e <;> simp
  intro w hw
  have hw2 := List.all_eq_true.mp hall w hw
  simpa using hw2

/-- A write list all of whose targets are the two output columns satisfies
the "wrote an output field" test iff it is nonempty. -/
lemma writes_any_eq_isEmpty (l : List (String × Cell))
    (h : ∀ w ∈ l, w.1 = "Reading From" ∨ w.1 = "Reading To") :
    (l.any fun w => w.1 == "Reading From" || w.1 == "Reading To") =
      !l.isEmpty := by
  cases l with
  | nil => rfl
  | cons w rest =>
    rcases h w (List.mem_cons_self _ _) with h1 | h1 <;>
      simp [List.any_cons, h1]

/-- C3: on a successful pass the returned match count is the number of
target rows for which the loop wrote at least one of the two output
fields. -/
theorem c3_match_count_additivity (df_billing df_target : DataFrame)
    (billing_type : String) (config : BillingFormat)
    (hc : BILLING_CONFIG.lookup billing_type = some config)
    (hb : config.col_nmi ∈ df_billing.cols)
    (ht : "Meter No." ∈ df_target.cols) :
    (process_dataframes df_billing df_target billing_type).2.1 =
      (ensureCol (ensureCol df_target "Reading From") "Reading To").rows.countP
        (fun r => (rowWrites (buildLookup config df_billing.rows) r).any
          (fun w => w.1 == "Reading From" || w.1 == "Reading To")) := by
  rw [process_dataframes_success_eq df_billing df_target billing_type config
    hc hb ht]
  rw [List.countP_map]
  refine List.countP_congr (fun r _ => ?_)
  show (processTargetRow (buildLookup config df_billing.rows) r).2 = true ↔ _
  rw [processTargetRow_snd_eq,
    writes_any_eq_isEmpty _ (rowWrites_keys (buildLookup config df_billing.rows) r)]

/-- A concrete billing table for end-to-end witnesses. -/
def dfBillingW : DataFrame :=
  ⟨["NMI", "PEAK_KWH", "PEAK_KWH.1", "Availability charge Quantity"],
   [billingRowQ]⟩

/-- A concrete target table for end-to-end witnesses. -/
def dfTargetW : DataFrame :=
  ⟨["Meter No."], [targetRowP, targetRowA]⟩

/-- Witness for C3 at a concrete successful pass. -/
theorem c3_match_count_additivity_witness :
    BILLING_CONFIG.lookup "Quarterly Billing" = some fmtQuarterly ∧
    fmtQuarterly.col_nmi ∈ dfBillingW.cols ∧
    "Meter No." ∈ dfTargetW.cols ∧
    (process_dataframes dfBillingW dfTargetW "Quarterly Billing").2.1 =
      (ensureCol (ensureCol dfTargetW "Reading From") "Reading To").rows.countP
        (fun r => (rowWrites (buildLookup fmtQuarterly dfBillingW.rows) r).any
          (fun w => w.1 == "Reading From" || w.1 == "Reading To")) :=
  ⟨by decide, by decide, by decide,
   c3_match_count_additivity dfBillingW dfTargetW "Quarterly Billing"
     fmtQuarterly (by decide) (by decide) (by decide)⟩

/-- A cell write leaves every other column of the row unchanged. -/
lemma setCell_other (row : Row) (c c2 : String) (v : Cell) (h : c2 ≠ c) :
    setCell row c v c2 = row c2 := by
  simp [setCell, h]

/-- The loop body leaves every column other than the two output columns
unchanged. -/
lemma processTargetRow_fst_other (lookup : Lookup) (row : Row) (c : String)
    (h1 : c ≠ "Reading From") (h2 : c ≠ "Reading To") :
    (processTargetRow lookup row).1 c = row c := by
  simp only [processTargetRow]
  by_cases hl : pyLen (clean_nmi (row "Meter No.")) < 2
  · simp [hl]
  · simp only [if_neg hl]
    cases hv : lookup (pyDropRight (clean_nmi (row "Meter No.")) 1) with
    | none => simp
    | some nmi_data =>
      dsimp only
      cases hs : nmi_data.lookup (pyLast (clean_nmi (row "Meter No."))) with
      | none => simp
      | some sd =>
        cases sd with
        | qty v => cases v <;> simp [setCell, h1, h2]
        | range s e => cases s <;> cases e <;> simp [setCell, h1, h2]

/-- Reading a fixed column commutes with mapping a per-row function that
preserves that column, also out of range. -/
lemma getD_map_apply (rows : List Row) (f : Row → Row) (i : Nat) (c : String)
    (hf : ∀ r, f r c = r c) :
    ((rows.map f).getD i (fun _ => none)) c =
      (rows.getD i (fun _ => none)) c := by
  rcases Nat.lt_or_ge i rows.length with hi | hi
  · rw [List.getD_eq_getElem?_getD, List.getD_eq_getElem?_getD,
      List.getElem?_map, List.getElem?_eq_getElem hi]
    simp [hf]
  · rw [List.getD_eq_getElem?_getD, List.getD_eq_getElem?_getD,
      List.getElem?_map, List.getElem?_eq_none hi]
    simp

/-- Ensuring a column never changes the number of rows. -/
lemma ensureCol_rows_length (df : DataFrame) (c : String) :
    (ensureCol df c).rows.length = df.rows.length := by
  unfold ensureCol
  split <;> simp

/-- Ensuring a column never changes any other column of any row. -/
lemma ensureCol_getD_other (df : DataFrame) (c0 : String) (i : Nat)
    (c : String) (h : c ≠ c0) :
    ((ensureCol df c0).rows.getD i (fun _ => none)) c =
      (df.rows.getD i (fun _ => none)) c := by
  unfold ensureCol
  split
  · rfl
  · exact getD_map_apply df.rows _ i c (fun r => setCell_other r c0 c none h)

/-- The ensured column is present afterwards. -/
lemma ensureCol_cols_mem_self (df : DataFrame) (c : String) :
    c ∈ (ensureCol df c).cols := by
  unfold ensureCol
  split
  · assumption
  · simp

/-- Ensuring a column keeps every existing column. -/
lemma ensureCol_cols_mono (df : DataFrame) (c0 c : String) (h : c ∈ df.cols) :
    c ∈ (ensureCol df c0).cols := by
  unfold ensureCol
  split
  · exact h
  · simp [h]

/-- Ensuring a column adds nothing beyond that column. -/
lemma ensureCol_cols_sub (df : DataFrame) (c0 : String) :
    ∀ c ∈ (ensureCol df c0).cols, c ∈ df.cols ∨ c = c0 := by
  unfold ensureCol
  split
  · exact fun c hc => Or.inl hc
  · intro c hc
    rcases List.mem_append.mp hc with h | h
    · exact Or.inl h
    · simp at h
      exact Or.inr h

/-- Ensuring an already-present column is a no-op. -/
lemma ensureCol_of_mem (df : DataFrame) (c : String) (h : c ∈ df.cols) :
    ensureCol df c = df := by
  unfold ensureCol
  rw [if_pos h]

/-- C9: a successful pass preserves row count and row order, leaves every
column other than the two output columns cell-for-cell intact, ensures the
two output columns exist, adds no other column, creates no column that was
already present, and a created column starts out all-absent. -/
theorem c9_frame_preservation (df_billing df_target : DataFrame)
    (billing_type : String) (out : DataFrame) (cnt : Nat)
    (h : process_dataframes df_billing df_target billing_type =
      (out, cnt, none)) :
    out.rows.length = df_target.rows.length ∧
    (∀ i : Nat, ∀ c : String, c ≠ "Reading From" → c ≠ "Reading To" →
      (out.rows.getD i (fun _ => none)) c =
        (df_target.rows.getD i (fun _ => none)) c) ∧
    "Reading From" ∈ out.cols ∧ "Reading To" ∈ out.cols ∧
    (∀ c ∈ df_target.cols, c ∈ out.cols) ∧
    (∀ c ∈ out.cols,
      c ∈ df_target.cols ∨ c = "Reading From" ∨ c = "Reading To") ∧
    ("Reading From" ∈ df_target.cols → "Reading To" ∈ df_target.cols →
      out.cols = df_target.cols) ∧
    (∀ (df : DataFrame) (c : String),
      (c ∈ df.cols → ensureCol df c = df) ∧
      (c ∉ df.cols → (ensureCol df c).cols = df.cols ++ [c] ∧
        ∀ r ∈ (ensureCol df c).rows, r c = none)) := by
  rcases hlk : BILLING_CONFIG.lookup billing_type with _ | config
  · rw [process_dataframes_none_eq _ _ _ hlk] at h
    simp only [Prod.mk.injEq] at h
    exact absurd h.2.2 (by simp)
  by_cases hb : config.col_nmi ∈ df_billing.cols
  case neg =>
    rw [process_dataframes_err_billing_eq _ _ _ config hlk hb] at h
    simp only [Prod.mk.injEq] at h
    exact absurd h.2.2 (by simp)
  by_cases ht : "Meter No." ∈ df_target.cols
  case neg =>
    rw [process_dataframes_err_target_eq _ _ _ config hlk hb ht] at h
    simp only [Prod.mk.injEq] at h
    exact absurd h.2.2 (by simp)
  rw [process_dataframes_success_eq _ _ _ config hlk hb ht] at h
  simp only [Prod.mk.injEq] at h
  obtain ⟨hout, _, _⟩ := h
  subst hout
  refine ⟨?_, ?_, ?_, ?_, ?_, ?_, ?_, ?_⟩
  · simp [ensureCol_rows_length]
  · intro i c h1 h2
    rw [List.map_map]
    rw [getD_map_apply _
      (Prod.fst ∘ processTargetRow (buildLookup config df_billing.rows)) i c
      (fun r => processTargetRow_fst_other
        (buildLookup config df_billing.rows) r c h1 h2)]
    rw [ensureCol_getD_other _ _ i c h2, ensureCol_getD_other _ _ i c h1]
  · exact ensureCol_cols_mono _ _ _
      (ensureCol_cols_mem_self df_target "Reading From")
  · exact ensureCol_cols_mem_self _ "Reading To"
  · intro c hc
    exact ensureCol_cols_mono _ _ _ (ensureCol_cols_mono _ _ _ hc)
  · intro c hc
    rcases ensureCol_cols_sub _ _ c hc with h3 | h3
    · rcases ensureCol_cols_sub _ _ c h3 with h4 | h4
      · exact Or.inl h4
      · exact Or.inr (Or.inl h4)
    · exact Or.inr (Or.inr h3)
  · intro hrf hrt
    rw [ensureCol_of_mem df_target "Reading From" hrf,
      ensureCol_of_mem df_target "Reading To" hrt]
  · intro df c
    refine ⟨ensureCol_of_mem df c, fun hc => ?_⟩
    unfold ensureCol
    rw [if_neg hc]
    refine ⟨rfl, fun r hr => ?_⟩
    simp only [List.mem_map] at hr
    obtain ⟨r0, _, hr0⟩ := hr
    rw [← hr0]
    simp [setCell]

/-- Witness for C9 at a concrete successful pass. -/
theorem c9_frame_preservation_witness :
    ((process_dataframes dfBillingW dfTargetW "Quarterly Billing").1).rows.length
        = dfTargetW.rows.length ∧
    "Reading From" ∈
      ((process_dataframes dfBillingW dfTargetW "Quarterly Billing").1).cols := by
  have h := c9_frame_preservation dfBillingW dfTargetW "Quarterly Billing"
    (process_dataframes dfBillingW dfTargetW "Quarterly Billing").1
    (process_dataframes dfBillingW dfTargetW "Quarterly Billing").2.1 rfl
  exact ⟨h.1, h.2.2.1⟩
